import Mathlib

/-!
Verification of the browser-side UI of the real-estate site: the admin
panel's property form (draft coercion, edit/cancel/delete flows) and the
landing page's chat widget, shallowly embedded from
`src/unnamed/part_001` (AdminPanel) and
`src/frontend/src/components/RealEstatePage.jsx`.

JavaScript machine numbers are modelled with `Int` (the integer fields
stay far below 2^53, where JS integer arithmetic and printing are exact)
and `ℚ` for `parseFloat` results; `NaN` and `null` are explicit
constructors of the payload value types.
-/

/-- Characters skipped by the JavaScript `parseInt` / `parseFloat`
leading-whitespace scan (ASCII subset). -/
def isJsWhitespace (c : Char) : Bool :=
  c == ' ' || c == '\t' || c == '\n' || c == '\r' || c == '\x0b' || c == '\x0c'

/-- Value of a list of decimal digit characters, most significant first. -/
def digitsToNat (ds : List Char) : Nat :=
  ds.foldl (fun a c => 10 * a + (c.toNat - 48)) 0

/-- Hexadecimal digit test, as accepted by `parseInt` after a `0x` prefix. -/
def isHexDigitChar (c : Char) : Bool :=
  c.isDigit || (decide ('a' ≤ c) && decide (c ≤ 'f')) || (decide ('A' ≤ c) && decide (c ≤ 'F'))

/-- Value of a list of hexadecimal digit characters, most significant first. -/
def hexDigitsToNat (ds : List Char) : Nat :=
  ds.foldl (fun a c =>
    16 * a + (if c.isDigit then c.toNat - 48
              else if decide ('a' ≤ c) then c.toNat - 87 else c.toNat - 55)) 0

/-- Model of JavaScript `parseInt(s)` (radix argument omitted, so radix 10,
or 16 after a `0x`/`0X` prefix): skip leading whitespace, read an optional
sign, then the maximal digit prefix; `none` models the `NaN` result when no
digit is found. -/
def parseIntJS (s : String) : Option Int :=
  let cs := s.data.dropWhile isJsWhitespace
  let sign : Int := match cs with | '-' :: _ => -1 | _ => 1
  let cs1 := match cs with | '-' :: r => r | '+' :: r => r | _ => cs
  match cs1 with
  | '0' :: 'x' :: r | '0' :: 'X' :: r =>
      let ds := r.takeWhile isHexDigitChar
      if ds.isEmpty then none else some (sign * (hexDigitsToNat ds : Int))
  | _ =>
      let ds := cs1.takeWhile Char.isDigit
      if ds.isEmpty then none else some (sign * (digitsToNat ds : Int))

/-- Model of JavaScript `parseFloat(s)` on finite decimal literals: skip
leading whitespace, read an optional sign, integer digits, an optional
fraction, and an optional exponent part, taking the maximal valid prefix;
`none` models the `NaN` result when no digit is found.  The exact rational
value of the literal is returned (the `Infinity` literal and float-64
rounding are outside the modelled fragment; no value in this code base
depends on them). -/
def parseFloatJS (s : String) : Option ℚ :=
  let cs := s.data.dropWhile isJsWhitespace
  let sign : ℚ := match cs with | '-' :: _ => -1 | _ => 1
  let cs1 := match cs with | '-' :: r => r | '+' :: r => r | _ => cs
  let intDs := cs1.takeWhile Char.isDigit
  let rest1 := cs1.dropWhile Char.isDigit
  let fracDs := match rest1 with
    | '.' :: r => r.takeWhile Char.isDigit
    | _ => []
  let rest2 := match rest1 with
    | '.' :: r => r.dropWhile Char.isDigit
    | _ => rest1
  if intDs.isEmpty && fracDs.isEmpty then none
  else
    let mant : ℚ :=
      sign * ((digitsToNat intDs : ℚ) + (digitsToNat fracDs : ℚ) / (10 ^ fracDs.length))
    match rest2 with
    | c :: r =>
        if c == 'e' || c == 'E' then
          let esign : Int := match r with | '-' :: _ => -1 | _ => 1
          let r1 := match r with | '-' :: rr => rr | '+' :: rr => rr | _ => r
          let eds := r1.takeWhile Char.isDigit
          if eds.isEmpty then some mant
          else some (mant * (10 : ℚ) ^ (esign * (digitsToNat eds : Int)))
        else some mant
    | [] => some mant

/-- Model of JavaScript `String.prototype.trim`: strip leading and
trailing whitespace. -/
def jsTrim (s : String) : String :=
  String.mk (((s.data.dropWhile isJsWhitespace).reverse.dropWhile isJsWhitespace).reverse)

/-- Helper for `jsSplitComma`: `acc` holds the current segment reversed. -/
def splitCommaAux : List Char → List Char → List String
  | [], acc => [String.mk acc.reverse]
  | c :: cs, acc =>
      if c == ',' then String.mk acc.reverse :: splitCommaAux cs []
      else splitCommaAux cs (c :: acc)

/-- Model of JavaScript `s.split(',')`: cut at every comma, keeping empty
segments (so the empty string yields `[""]`, and `"a,,b"` yields
`["a", "", "b"]`). -/
def jsSplitComma (s : String) : List String :=
  splitCommaAux s.data []

/-- Model of the JavaScript expression `parseInt(s) || 0`: both a `NaN`
parse result and a parsed `0` collapse to `0`. -/
def parseIntOrZero (s : String) : Int := (parseIntJS s).getD 0

/-- A JavaScript number-or-null slot holding an integer parse result:
`null`, `NaN`, or an integer. -/
inductive JsNum where
  | null : JsNum
  | nan : JsNum
  | int (z : Int) : JsNum
deriving DecidableEq

/-- A JavaScript number-or-null slot holding a float parse result:
`null`, `NaN`, or a (rational-valued) number. -/
inductive JsRat where
  | null : JsRat
  | nan : JsRat
  | num (q : ℚ) : JsRat
deriving DecidableEq

/-- `parseInt(s)` as a `JsNum` (never `null`; `NaN` on parse failure). -/
def jsParseIntNum (s : String) : JsNum :=
  match parseIntJS s with
  | some z => JsNum.int z
  | none => JsNum.nan

/-- `parseFloat(s)` as a `JsRat` (never `null`; `NaN` on parse failure). -/
def jsParseFloatNum (s : String) : JsRat :=
  match parseFloatJS s with
  | some q => JsRat.num q
  | none => JsRat.nan

/-- The all-string Form Draft: the `formData` React state of `AdminPanel`. -/
structure FormData where
  title : String
  description : String
  price : String
  location : String
  address : String
  bedrooms : String
  bathrooms : String
  sqft : String
  property_type : String
  image_url : String
  amenities : String
  year_built : String
  garage : String
  lot_size : String
  mls_number : String
deriving DecidableEq

/-- The empty draft template: the initial `useState` value of `formData`,
also what `resetForm` restores. -/
def emptyFormData : FormData :=
  { title := "", description := "", price := "", location := "", address := ""
    bedrooms := "", bathrooms := "", sqft := "", property_type := "", image_url := ""
    amenities := "", year_built := "", garage := "", lot_size := "", mls_number := "" }

/-- The typed payload `submitData` built by `handleSubmit` from the draft. -/
structure SubmitData where
  title : String
  description : String
  location : String
  address : String
  property_type : String
  image_url : String
  mls_number : String
  price : Int
  bedrooms : Int
  bathrooms : Int
  sqft : Int
  year_built : JsNum
  garage : JsNum
  lot_size : JsRat
  amenities : List String
deriving DecidableEq

/-- The coercion performed by `handleSubmit` (part_001 lines 112-122): the
draft is spread into the payload, the four integer fields go through
`parseInt(x) || 0`, `year_built`/`garage`/`lot_size` are `null` when their
source string is empty (JS string truthiness) and parsed otherwise, and
`amenities` is split on commas with each segment trimmed, or `[]` when the
source string is empty. -/
def toPayload (fd : FormData) : SubmitData :=
  { title := fd.title
    description := fd.description
    location := fd.location
    address := fd.address
    property_type := fd.property_type
    image_url := fd.image_url
    mls_number := fd.mls_number
    price := parseIntOrZero fd.price
    bedrooms := parseIntOrZero fd.bedrooms
    bathrooms := parseIntOrZero fd.bathrooms
    sqft := parseIntOrZero fd.sqft
    year_built := if fd.year_built = "" then JsNum.null else jsParseIntNum fd.year_built
    garage := if fd.garage = "" then JsNum.null else jsParseIntNum fd.garage
    lot_size := if fd.lot_size = "" then JsRat.null else jsParseFloatNum fd.lot_size
    amenities := if fd.amenities = "" then [] else (jsSplitComma fd.amenities).map jsTrim }

/-- `parseInt` as a `JsNum` never yields `null`. -/
theorem jsParseIntNum_ne_null (s : String) : jsParseIntNum s ≠ JsNum.null := by
  unfold jsParseIntNum
  cases parseIntJS s <;> simp

/-- `parseFloat` as a `JsRat` never yields `null`. -/
theorem jsParseFloatNum_ne_null (s : String) : jsParseFloatNum s ≠ JsRat.null := by
  unfold jsParseFloatNum
  cases parseFloatJS s <;> simp

/-- C1: `toPayload` maps the four integer draft fields `price`,
`bedrooms`, `bathrooms`, `sqft` through parseInt-or-0 (a non-numeric
string such as price "abc" yields 0 and never fails the submit), maps
`year_built` and `garage` to null exactly when their source string is
empty (otherwise to their `parseInt` result), and maps `lot_size` to its
`parseFloat` result, or to null exactly when its source string is
empty. -/
theorem C1_toPayload_numeric_coercion (fd : FormData) :
    ((toPayload fd).price = (match parseIntJS fd.price with | none => 0 | some z => z)
        ∧ (toPayload fd).bedrooms = (match parseIntJS fd.bedrooms with | none => 0 | some z => z)
        ∧ (toPayload fd).bathrooms = (match parseIntJS fd.bathrooms with | none => 0 | some z => z)
        ∧ (toPayload fd).sqft = (match parseIntJS fd.sqft with | none => 0 | some z => z))
    ∧ parseIntJS "abc" = none
    ∧ (toPayload { fd with price := "abc" }).price = 0
    ∧ ((toPayload fd).year_built = JsNum.null ↔ fd.year_built = "")
    ∧ (fd.year_built ≠ "" → (toPayload fd).year_built = jsParseIntNum fd.year_built)
    ∧ ((toPayload fd).garage = JsNum.null ↔ fd.garage = "")
    ∧ (fd.garage ≠ "" → (toPayload fd).garage = jsParseIntNum fd.garage)
    ∧ ((toPayload fd).lot_size = JsRat.null ↔ fd.lot_size = "")
    ∧ (fd.lot_size ≠ "" → (toPayload fd).lot_size = jsParseFloatNum fd.lot_size) := by
  refine ⟨⟨?_, ?_, ?_, ?_⟩, by decide, by show parseIntOrZero "abc" = 0; decide,
    ?_, ?_, ?_, ?_, ?_, ?_⟩
  · show (parseIntJS fd.price).getD 0 = _
    cases parseIntJS fd.price <;> rfl
  · show (parseIntJS fd.bedrooms).getD 0 = _
    cases parseIntJS fd.bedrooms <;> rfl
  · show (parseIntJS fd.bathrooms).getD 0 = _
    cases parseIntJS fd.bathrooms <;> rfl
  · show (parseIntJS fd.sqft).getD 0 = _
    cases parseIntJS fd.sqft <;> rfl
  · by_cases h : fd.year_built = "" <;> simp [toPayload, h, jsParseIntNum_ne_null]
  · intro h; simp [toPayload, h]
  · by_cases h : fd.garage = "" <;> simp [toPayload, h, jsParseIntNum_ne_null]
  · intro h; simp [toPayload, h]
  · by_cases h : fd.lot_size = "" <;> simp [toPayload, h, jsParseFloatNum_ne_null]
  · intro h; simp [toPayload, h]

/-- A concrete draft exercising the optional-field coercions of C1. -/
def fdC1 : FormData :=
  { emptyFormData with year_built := "1999", garage := "0", lot_size := "zz" }

/-- Witness for C1 at a concrete draft: a populated `year_built` parses, a
populated `garage` of "0" parses to 0 rather than null, and a populated
but non-numeric `lot_size` goes through `parseFloat` (to NaN). -/
theorem C1_witness :
    (toPayload fdC1).year_built = jsParseIntNum "1999"
    ∧ (toPayload fdC1).garage = jsParseIntNum "0"
    ∧ (toPayload fdC1).lot_size = jsParseFloatNum "zz" := by
  obtain ⟨-, -, -, -, hy, -, hg, -, hl⟩ := C1_toPayload_numeric_coercion fdC1
  exact ⟨hy (by decide), hg (by decide), hl (by decide)⟩

/-- C2: for a non-empty amenities draft string the payload amenities list
is the string split on commas with each segment trimmed and no empty
segment filtered out; in particular "Pool, Spa,  Gym" produces exactly
["Pool", "Spa", "Gym"], and a string with consecutive commas keeps its
empty segment. -/
theorem C2_amenities_split_trim (fd : FormData) (h : fd.amenities ≠ "") :
    (toPayload fd).amenities = (jsSplitComma fd.amenities).map jsTrim
    ∧ (toPayload fd).amenities.length = (jsSplitComma fd.amenities).length
    ∧ (toPayload { emptyFormData with amenities := "Pool, Spa,  Gym" }).amenities
        = ["Pool", "Spa", "Gym"]
    ∧ (toPayload { emptyFormData with amenities := "a,,b" }).amenities = ["a", "", "b"] := by
  refine ⟨?_, ?_, by decide, by decide⟩ <;> simp [toPayload, h]

/-- Witness for C2 at the concrete draft text of the claim. -/
theorem C2_witness :
    (toPayload { emptyFormData with amenities := "Pool, Spa,  Gym" }).amenities
      = (jsSplitComma "Pool, Spa,  Gym").map jsTrim :=
  (C2_amenities_split_trim { emptyFormData with amenities := "Pool, Spa,  Gym" }
    (by decide)).1

/-- C10: when the amenities draft string is empty the payload amenities is
the empty list, not the one-element list containing the empty string that
an unguarded split-and-trim of "" would produce. -/
theorem C10_empty_amenities (fd : FormData) (h : fd.amenities = "") :
    (toPayload fd).amenities = []
    ∧ (jsSplitComma "").map jsTrim = [""] := by
  exact ⟨by simp [toPayload, h], by decide⟩

/-- Witness for C10 at the empty draft. -/
theorem C10_witness :
    (toPayload emptyFormData).amenities = [] ∧ (jsSplitComma "").map jsTrim = [""] :=
  C10_empty_amenities emptyFormData rfl

/-- A chat turn tag: the `type` field of a transcript message. -/
inductive MsgType where
  | user : MsgType
  | agent : MsgType
deriving DecidableEq

/-- One transcript message of the Chat Widget. -/
structure ChatMsg where
  type : MsgType
  content : String
deriving DecidableEq

/-- The Chat Widget's React state in `RealEstatePage`: whether the widget
is open, the transcript, the input box text, and the in-flight flag. -/
structure ChatState where
  chatOpen : Bool
  messages : List ChatMsg
  inputMessage : String
  isLoading : Bool
deriving DecidableEq

/-- Outcome of the POST `/api/chat` request as observed by `sendMessage`:
a response carrying its `success` flag and text, or a request failure. -/
inductive ChatOutcome where
  | ok (success : Bool) (text : String) : ChatOutcome
  | netError : ChatOutcome

/-- The fixed fallback appended when the response carries success=false. -/
def fallbackTrouble : String :=
  "I apologize, but I\x27m having trouble responding right now. Please try again."

/-- The fixed fallback appended when the chat request itself fails. -/
def fallbackUnavailable : String :=
  "I\x27m currently unavailable. Please try again later."

/-- The synchronous prefix of `sendMessage` (RealEstatePage lines
108-114): a no-op returning `false` (no request issued) when the trimmed
input is empty or a send is already in flight; otherwise clear the input,
append the user's turn, raise the in-flight flag and return `true` (one
request issued). -/
def sendMessageStart (st : ChatState) : ChatState × Bool :=
  if jsTrim st.inputMessage = "" ∨ st.isLoading = true then (st, false)
  else
    ({ st with inputMessage := ""
               messages := st.messages ++ [{ type := MsgType.user, content := st.inputMessage }]
               isLoading := true }, true)

/-- The agent text appended for a given request outcome (RealEstatePage
lines 122-137): the response text when success=true, otherwise one of the
two fixed fallbacks. -/
def agentReplyText : ChatOutcome → String
  | ChatOutcome.ok true t => t
  | ChatOutcome.ok false _ => fallbackTrouble
  | ChatOutcome.netError => fallbackUnavailable

/-- The continuation of `sendMessage` once its request completes: append
one agent turn and clear the in-flight flag. -/
def sendMessageComplete (st : ChatState) (o : ChatOutcome) : ChatState :=
  { st with
      messages := st.messages ++ [{ type := MsgType.agent, content := agentReplyText o }]
      isLoading := false }

/-- A whole `sendMessage` call whose request (when issued) completes with
outcome `o`; the boolean is whether a request was issued. -/
def sendMessage (st : ChatState) (o : ChatOutcome) : ChatState × Bool :=
  let r := sendMessageStart st
  if r.2 then (sendMessageComplete r.1 o, true) else (r.1, false)

/-- `n` further `sendMessage` entries (their synchronous prefixes) fired
in sequence, as when the user keeps pressing Enter. -/
def sendStartAttempts : ChatState → Nat → ChatState
  | st, 0 => st
  | st, n + 1 => sendStartAttempts (sendMessageStart st).1 n

/-- C3: a completed send from a sendable state appends exactly the user's
turn followed by one agent turn (the response text on success=true, the
fixed fallbacks on success=false or request failure), so the transcript
gains exactly two turns and the user's turn is not removed. -/
theorem C3_sendMessage_appends (st : ChatState) (o : ChatOutcome)
    (h1 : jsTrim st.inputMessage ≠ "") (h2 : st.isLoading = false) :
    (sendMessage st o).1.messages
        = st.messages
            ++ [{ type := MsgType.user, content := st.inputMessage },
                { type := MsgType.agent, content := agentReplyText o }]
    ∧ (sendMessage st o).1.messages.length = st.messages.length + 2
    ∧ (sendMessage st o).2 = true
    ∧ (∀ t, agentReplyText (ChatOutcome.ok true t) = t)
    ∧ (∀ t, agentReplyText (ChatOutcome.ok false t) = fallbackTrouble)
    ∧ agentReplyText ChatOutcome.netError = fallbackUnavailable := by
  have hguard : ¬(jsTrim st.inputMessage = "" ∨ st.isLoading = true) := by
    simp [h1, h2]
  have hmsgs : (sendMessage st o).1.messages
      = st.messages
          ++ [{ type := MsgType.user, content := st.inputMessage },
              { type := MsgType.agent, content := agentReplyText o }] := by
    simp [sendMessage, sendMessageStart, sendMessageComplete, hguard]
  refine ⟨hmsgs, ?_, ?_, fun t => rfl, fun t => rfl, rfl⟩
  · rw [hmsgs]; simp
  · simp [sendMessage, sendMessageStart, hguard]

/-- Witness for C3: a concrete sendable state with input "hi" whose
request fails gains the user turn and the unavailable fallback. -/
theorem C3_witness :
    (sendMessage { chatOpen := true, messages := [], inputMessage := "hi", isLoading := false }
        ChatOutcome.netError).1.messages
      = [{ type := MsgType.user, content := "hi" },
         { type := MsgType.agent, content := fallbackUnavailable }] := by
  have h := C3_sendMessage_appends
    { chatOpen := true, messages := [], inputMessage := "hi", isLoading := false }
    ChatOutcome.netError (by decide) rfl
  simpa using h.1

/-- C4: a chat send is a no-op (no request issued, transcript and input
unchanged) when the trimmed input is empty or a previous send is still in
flight, and any number of further send attempts in such a state leave it
unchanged — so at most one chat request is outstanding and the transcript
never grows beyond the pending exchange while a send is in flight. -/
theorem C4_send_suppressed (st : ChatState) (o : ChatOutcome) (n : Nat)
    (h : jsTrim st.inputMessage = "" ∨ st.isLoading = true) :
    sendMessage st o = (st, false) ∧ sendStartAttempts st n = st := by
  have hstart : sendMessageStart st = (st, false) := by
    simp [sendMessageStart, h]
  refine ⟨by simp [sendMessage, hstart], ?_⟩
  induction n with
  | zero => rfl
  | succ n ih =>
      show sendStartAttempts (sendMessageStart st).1 n = st
      rw [hstart]
      exact ih

/-- Witness for C4: with a send already in flight, a further send issues
no request and three repeated attempts leave the state unchanged. -/
theorem C4_witness :
    sendMessage { chatOpen := true, messages := [], inputMessage := "x", isLoading := true }
        ChatOutcome.netError
      = ({ chatOpen := true, messages := [], inputMessage := "x", isLoading := true }, false)
    ∧ sendStartAttempts
        { chatOpen := true, messages := [], inputMessage := "x", isLoading := true } 3
      = { chatOpen := true, messages := [], inputMessage := "x", isLoading := true } :=
  C4_send_suppressed _ ChatOutcome.netError 3 (Or.inr rfl)

/-- JavaScript `Number.prototype.toString` on an integer value (exact in
the modelled sub-2^53 range): the usual signed decimal representation. -/
def jsIntToString (z : Int) : String := toString z

/-- Smallest `k` with `d` dividing `10 ^ k`, searched up to 63 (enough for
every denominator a `parseFloat` result can have within the modelled
decimal range). -/
def pow10Exponent (d : Nat) : Option Nat :=
  (List.range 64).find? fun k => 10 ^ k % d == 0

/-- Left-pad a digit string with zeros to length `k`. -/
def padLeftZeros (s : String) (k : Nat) : String :=
  String.mk (List.replicate (k - s.data.length) '0' ++ s.data)

/-- JavaScript `Number.prototype.toString` on a finite decimal value,
modelled on exact rationals: integers print as integers, rationals with a
power-of-ten-smooth denominator print as their shortest decimal expansion
(matching the JS shortest round-trip output for such values); other
rationals cannot arise from `parseFloat` of a decimal literal and get a
fraction rendering. -/
def ratToJsString (q : ℚ) : String :=
  let sign := if q < 0 then "-" else ""
  let n := q.num.natAbs
  let d := q.den
  if d = 1 then sign ++ toString n
  else
    match pow10Exponent d with
    | some k =>
        let scaled := n * 10 ^ k / d
        sign ++ toString (scaled / 10 ^ k) ++ "." ++ padLeftZeros (toString (scaled % 10 ^ k)) k
    | none => sign ++ toString n ++ "/" ++ toString d

/-- A property record as returned by the backend list endpoint. -/
structure Property where
  id : String
  title : String
  description : String
  price : Int
  location : String
  address : String
  bedrooms : Int
  bathrooms : Int
  sqft : Int
  property_type : String
  image_url : String
  amenities : List String
  year_built : Option Int
  garage : Option Int
  lot_size : Option ℚ
  mls_number : Option String
  status : String
deriving DecidableEq

/-- The draft `handleEdit` builds from a property (part_001 lines
141-157): every field stringified, amenities joined with ", ", each absent
optional field rendered as the empty string.  The source's
`x?.toString() || ''` never takes the `|| ''` fallback on a present value,
because no number stringifies to a falsy string, so `Option.map` followed
by `getD ""` is an exact model. -/
def formDataOfProperty (p : Property) : FormData :=
  { title := p.title
    description := p.description
    price := jsIntToString p.price
    location := p.location
    address := p.address
    bedrooms := jsIntToString p.bedrooms
    bathrooms := jsIntToString p.bathrooms
    sqft := jsIntToString p.sqft
    property_type := p.property_type
    image_url := p.image_url
    amenities := String.intercalate ", " p.amenities
    year_built := (p.year_built.map jsIntToString).getD ""
    garage := (p.garage.map jsIntToString).getD ""
    lot_size := (p.lot_size.map ratToJsString).getD ""
    mls_number := p.mls_number.getD "" }

/-- The `AdminPanel` React state. -/
structure AdminState where
  properties : List Property
  loading : Bool
  isDialogOpen : Bool
  editingProperty : Option Property
  formData : FormData
deriving DecidableEq

/-- The `AdminPanel` state on mount. -/
def initAdminState : AdminState :=
  { properties := [], loading := true, isDialogOpen := false
    editingProperty := none, formData := emptyFormData }

/-- Outcome of a mutation request (POST/PUT/DELETE). -/
inductive ReqOutcome where
  | success : ReqOutcome
  | failure : ReqOutcome
deriving DecidableEq

/-- An HTTP request the panel can issue against the API. -/
inductive Request where
  | getProps : Request
  | postProp (payload : SubmitData) : Request
  | putProp (id : String) (payload : SubmitData) : Request
  | deleteProp (id : String) : Request
deriving DecidableEq

/-- State change, requests issued, and whether a blocking alert was shown
by one admin action. -/
structure ActionResult where
  state : AdminState
  requests : List Request
  alerted : Bool
deriving DecidableEq

/-- Completion of `fetchProperties`: on response the list is replaced, on
fetch failure only logged; either way the loading flag drops. -/
def applyFetch (st : AdminState) (r : Option (List Property)) : AdminState :=
  match r with
  | some l => { st with properties := l, loading := false }
  | none => { st with loading := false }

/-- The single mutation request `handleSubmit` issues: PUT to the edited
property's id when the editing marker is set, POST otherwise. -/
def submitRequest (st : AdminState) : Request :=
  match st.editingProperty with
  | some p => Request.putProp p.id (toPayload st.formData)
  | none => Request.postProp (toPayload st.formData)

/-- `handleSubmit` (part_001 lines 110-137) with its mutation outcome and,
on success, the refresh fetch's result: on failure everything is caught,
an alert is shown, and no state changes; on success the dialog closes, the
draft and editing marker reset, and the list is refetched. -/
def handleSubmit (st : AdminState) (o : ReqOutcome) (fetchRes : Option (List Property)) :
    ActionResult :=
  match o with
  | ReqOutcome.failure => { state := st, requests := [submitRequest st], alerted := true }
  | ReqOutcome.success =>
      let closed := { st with isDialogOpen := false, formData := emptyFormData
                              editingProperty := none }
      { state := applyFetch closed fetchRes
        requests := [submitRequest st, Request.getProps], alerted := false }

/-- `handleEdit` (part_001 lines 139-159): set the editing marker, load
the draft from the property, open the dialog. -/
def handleEdit (st : AdminState) (p : Property) : AdminState :=
  { st with editingProperty := some p, formData := formDataOfProperty p, isDialogOpen := true }

/-- `handleDelete` (part_001 lines 161-171) with the user's confirmation
choice, the DELETE outcome, and the refresh fetch's result: declining is a
complete no-op; confirming issues one DELETE, then on success refetches
the list and on failure shows an alert. -/
def handleDelete (st : AdminState) (pid : String) (confirmed : Bool) (o : ReqOutcome)
    (fetchRes : Option (List Property)) : ActionResult :=
  if confirmed then
    match o with
    | ReqOutcome.success =>
        { state := applyFetch st fetchRes
          requests := [Request.deleteProp pid, Request.getProps], alerted := false }
    | ReqOutcome.failure =>
        { state := st, requests := [Request.deleteProp pid], alerted := true }
  else { state := st, requests := [], alerted := false }

/-- Whether a list of issued requests contains the list refetch. -/
def issuesRefetch (reqs : List Request) : Bool :=
  reqs.any fun r => match r with | Request.getProps => true | _ => false

/-- Number of DELETE requests for a given property id in a request list. -/
def deleteCount (reqs : List Request) (pid : String) : Nat :=
  reqs.countP fun r => match r with | Request.deleteProp j => j == pid | _ => false

/-- A draft field, as named by `handleInputChange` call sites. -/
inductive FormField where
  | title | description | price | location | address | bedrooms | bathrooms | sqft
  | property_type | image_url | amenities | year_built | garage | lot_size | mls_number
deriving DecidableEq

/-- `handleInputChange` (part_001 lines 85-87): merge one field into the
draft. -/
def handleInputChange (fd : FormData) (f : FormField) (v : String) : FormData :=
  match f with
  | FormField.title => { fd with title := v }
  | FormField.description => { fd with description := v }
  | FormField.price => { fd with price := v }
  | FormField.location => { fd with location := v }
  | FormField.address => { fd with address := v }
  | FormField.bedrooms => { fd with bedrooms := v }
  | FormField.bathrooms => { fd with bathrooms := v }
  | FormField.sqft => { fd with sqft := v }
  | FormField.property_type => { fd with property_type := v }
  | FormField.image_url => { fd with image_url := v }
  | FormField.amenities => { fd with amenities := v }
  | FormField.year_built => { fd with year_built := v }
  | FormField.garage => { fd with garage := v }
  | FormField.lot_size => { fd with lot_size := v }
  | FormField.mls_number => { fd with mls_number := v }

/-- A user interaction or request completion observed by `AdminPanel`. -/
inductive AdminEvent where
  | fetched (r : Option (List Property)) : AdminEvent
  | openAddHeader : AdminEvent
  | openAddEmptyState : AdminEvent
  | setField (f : FormField) (v : String) : AdminEvent
  | clickEdit (p : Property) : AdminEvent
  | clickCancel : AdminEvent
  | clickSubmit (o : ReqOutcome) (fr : Option (List Property)) : AdminEvent
  | clickDelete (pid : String) (confirmed : Bool) (o : ReqOutcome)
      (fr : Option (List Property)) : AdminEvent

/-- One step of the `AdminPanel` UI.  Guards encode which controls are
rendered: the header "Add Property" button (which runs `resetForm` before
the dialog opens) is always present; the empty-state "Add Your First
Property" button (which only calls `setIsDialogOpen(true)`) is rendered
when loading is done and the list is empty; per-property Edit/Delete
buttons exist for listed properties; Cancel/Save live in the dialog.
A click on a control that is not rendered leaves the state unchanged. -/
def adminStep (st : AdminState) (e : AdminEvent) : AdminState :=
  match e with
  | AdminEvent.fetched r => applyFetch st r
  | AdminEvent.openAddHeader =>
      { st with formData := emptyFormData, editingProperty := none, isDialogOpen := true }
  | AdminEvent.openAddEmptyState =>
      if st.loading = false ∧ st.properties = [] then { st with isDialogOpen := true } else st
  | AdminEvent.setField f v => { st with formData := handleInputChange st.formData f v }
  | AdminEvent.clickEdit p =>
      if st.loading = false ∧ p ∈ st.properties then handleEdit st p else st
  | AdminEvent.clickCancel => { st with isDialogOpen := false }
  | AdminEvent.clickSubmit o fr =>
      if st.isDialogOpen then (handleSubmit st o fr).state else st
  | AdminEvent.clickDelete pid confirmed o fr =>
      if st.loading = false ∧ pid ∈ st.properties.map Property.id then
        (handleDelete st pid confirmed o fr).state
      else st

/-- Run a sequence of `AdminPanel` events. -/
def runTrace (st : AdminState) (es : List AdminEvent) : AdminState :=
  es.foldl adminStep st

/-- C5: a failed create/update submission is caught and surfaced as a
blocking alert with the whole panel state (dialog, draft, editing marker,
list) unchanged and no list refetch; only a successful submission closes
the dialog, resets the draft and marker, and refetches the list. -/
theorem C5_submit_failure_keeps_state (st : AdminState) (fr : Option (List Property))
    (l : List Property) :
    handleSubmit st ReqOutcome.failure fr
        = { state := st, requests := [submitRequest st], alerted := true }
    ∧ (handleSubmit st ReqOutcome.failure fr).state.isDialogOpen = st.isDialogOpen
    ∧ (handleSubmit st ReqOutcome.failure fr).state.formData = st.formData
    ∧ (handleSubmit st ReqOutcome.failure fr).state.editingProperty = st.editingProperty
    ∧ (handleSubmit st ReqOutcome.failure fr).state.properties = st.properties
    ∧ issuesRefetch (handleSubmit st ReqOutcome.failure fr).requests = false
    ∧ (handleSubmit st ReqOutcome.success fr).state.isDialogOpen = false
    ∧ (handleSubmit st ReqOutcome.success fr).state.formData = emptyFormData
    ∧ (handleSubmit st ReqOutcome.success fr).state.editingProperty = none
    ∧ (handleSubmit st ReqOutcome.success fr).alerted = false
    ∧ issuesRefetch (handleSubmit st ReqOutcome.success fr).requests = true
    ∧ (handleSubmit st ReqOutcome.success (some l)).state.properties = l := by
  refine ⟨rfl, rfl, rfl, rfl, rfl, ?_, ?_, ?_, ?_, rfl, ?_, rfl⟩
  · cases h : st.editingProperty <;> simp [handleSubmit, submitRequest, issuesRefetch, h]
  · cases fr <;> rfl
  · cases fr <;> rfl
  · cases fr <;> rfl
  · cases h : st.editingProperty <;> simp [handleSubmit, submitRequest, issuesRefetch, h]

/-- C6: declining the delete confirmation issues no request and leaves the
state unchanged; confirming issues exactly one DELETE for that property's
id and, on its success, refetches the list. -/
theorem C6_handleDelete_confirmation (st : AdminState) (pid : String) (o : ReqOutcome)
    (fr : Option (List Property)) (l : List Property) :
    handleDelete st pid false o fr = { state := st, requests := [], alerted := false }
    ∧ (handleDelete st pid true o fr).requests
        = Request.deleteProp pid
            :: (if o = ReqOutcome.success then [Request.getProps] else [])
    ∧ deleteCount (handleDelete st pid true o fr).requests pid = 1
    ∧ deleteCount (handleDelete st pid false o fr).requests pid = 0
    ∧ issuesRefetch (handleDelete st pid true ReqOutcome.success fr).requests = true
    ∧ issuesRefetch (handleDelete st pid true ReqOutcome.failure fr).requests = false
    ∧ (handleDelete st pid true ReqOutcome.success (some l)).state.properties = l
    ∧ (handleDelete st pid true ReqOutcome.failure fr).state = st := by
  refine ⟨rfl, ?_, ?_, rfl, rfl, rfl, rfl, rfl⟩
  · cases o <;> rfl
  · cases o <;> simp [handleDelete, deleteCount]

/-- C7: opening Edit on property `p` sets the editing marker to `p`, opens
the dialog, and populates every draft field with the string representation
of the corresponding field of `p` (amenities joined as a comma-separated
string), with each absent optional field rendered as the empty string. -/
theorem C7_handleEdit_loads_draft (st : AdminState) (p : Property) :
    (handleEdit st p).editingProperty = some p
    ∧ (handleEdit st p).isDialogOpen = true
    ∧ (handleEdit st p).formData.title = p.title
    ∧ (handleEdit st p).formData.description = p.description
    ∧ (handleEdit st p).formData.price = jsIntToString p.price
    ∧ (handleEdit st p).formData.location = p.location
    ∧ (handleEdit st p).formData.address = p.address
    ∧ (handleEdit st p).formData.bedrooms = jsIntToString p.bedrooms
    ∧ (handleEdit st p).formData.bathrooms = jsIntToString p.bathrooms
    ∧ (handleEdit st p).formData.sqft = jsIntToString p.sqft
    ∧ (handleEdit st p).formData.property_type = p.property_type
    ∧ (handleEdit st p).formData.image_url = p.image_url
    ∧ (handleEdit st p).formData.amenities = String.intercalate ", " p.amenities
    ∧ (handleEdit st p).formData.year_built
        = (match p.year_built with | some y => jsIntToString y | none => "")
    ∧ (handleEdit st p).formData.garage
        = (match p.garage with | some g => jsIntToString g | none => "")
    ∧ (handleEdit st p).formData.lot_size
        = (match p.lot_size with | some q => ratToJsString q | none => "")
    ∧ (handleEdit st p).formData.mls_number
        = (match p.mls_number with | some m => m | none => "") := by
  refine ⟨rfl, rfl, rfl, rfl, rfl, rfl, rfl, rfl, rfl, rfl, rfl, rfl, rfl, ?_, ?_, ?_, ?_⟩
  · rcases h : p.year_built <;> simp [handleEdit, formDataOfProperty, h]
  · rcases h : p.garage <;> simp [handleEdit, formDataOfProperty, h]
  · rcases h : p.lot_size <;> simp [handleEdit, formDataOfProperty, h]
  · rcases h : p.mls_number <;> simp [handleEdit, formDataOfProperty, h]

/-- A property used to exhibit a stale draft surviving a cancelled edit. -/
def sampleProperty : Property :=
  { id := "p1", title := "Home A", description := "Cozy", price := 100
    location := "Springfield", address := "1 Main St", bedrooms := 2, bathrooms := 1
    sqft := 900, property_type := "house", image_url := "img", amenities := ["Pool"]
    year_built := none, garage := none, lot_size := none, mls_number := none
    status := "active" }

/-- Real interaction sequence: the list loads with one property, the user
edits it, cancels, then deletes it (confirming; the refreshed list is
empty).  The empty-state Add button is now rendered while the draft and
editing marker still hold the cancelled edit. -/
def staleDraftTrace : List AdminEvent :=
  [ AdminEvent.fetched (some [sampleProperty])
  , AdminEvent.clickEdit sampleProperty
  , AdminEvent.clickCancel
  , AdminEvent.clickDelete "p1" true ReqOutcome.success (some []) ]

/-- Counterexample to C8: after `staleDraftTrace` the empty-state "Add
Your First Property" button is rendered (list empty, loading done) and
clicking it opens the dialog with the editing marker still set and a
non-empty draft — not the empty template the claim requires of every way
of opening the Add dialog. -/
theorem C8_counterexample :
    (runTrace initAdminState staleDraftTrace).loading = false
    ∧ (runTrace initAdminState staleDraftTrace).properties = []
    ∧ (adminStep (runTrace initAdminState staleDraftTrace)
        AdminEvent.openAddEmptyState).isDialogOpen = true
    ∧ (adminStep (runTrace initAdminState staleDraftTrace)
        AdminEvent.openAddEmptyState).editingProperty = some sampleProperty
    ∧ (adminStep (runTrace initAdminState staleDraftTrace)
        AdminEvent.openAddEmptyState).formData ≠ emptyFormData := by decide

/-- C8 as amended: the header "Add Property" button always presents the
empty draft with the editing marker cleared; the empty-state "Add Your
First Property" button only opens the dialog and leaves the draft and
editing marker exactly as they were. -/
theorem C8_amended_open_add (st : AdminState) :
    adminStep st AdminEvent.openAddHeader
      = { st with formData := emptyFormData, editingProperty := none, isDialogOpen := true }
    ∧ (adminStep st AdminEvent.openAddEmptyState).formData = st.formData
    ∧ (adminStep st AdminEvent.openAddEmptyState).editingProperty = st.editingProperty := by
  refine ⟨rfl, ?_, ?_⟩ <;> (simp only [adminStep]; split <;> rfl)

/-- Real interaction sequence: the list loads with one property and the
user opens Edit on it. -/
def cancelKeepsDraftTrace : List AdminEvent :=
  [ AdminEvent.fetched (some [sampleProperty])
  , AdminEvent.clickEdit sampleProperty ]

/-- Counterexample to C9: cancelling the edit dialog reached by
`cancelKeepsDraftTrace` closes it but leaves the draft populated and the
editing marker set — the draft does not return to the empty template. -/
theorem C9_counterexample :
    (runTrace initAdminState cancelKeepsDraftTrace).isDialogOpen = true
    ∧ (adminStep (runTrace initAdminState cancelKeepsDraftTrace)
        AdminEvent.clickCancel).isDialogOpen = false
    ∧ (adminStep (runTrace initAdminState cancelKeepsDraftTrace)
        AdminEvent.clickCancel).formData ≠ emptyFormData
    ∧ (adminStep (runTrace initAdminState cancelKeepsDraftTrace)
        AdminEvent.clickCancel).editingProperty = some sampleProperty := by decide

/-- C9 as amended: Cancel only closes the dialog, leaving the draft and
editing marker unchanged; the draft returns to the empty template with the
marker cleared on a successful submit (and when the header Add Property
button runs `resetForm`), not on cancel. -/
theorem C9_amended_cancel_keeps_draft (st : AdminState) (fr : Option (List Property)) :
    (adminStep st AdminEvent.clickCancel).isDialogOpen = false
    ∧ (adminStep st AdminEvent.clickCancel).formData = st.formData
    ∧ (adminStep st AdminEvent.clickCancel).editingProperty = st.editingProperty
    ∧ (handleSubmit st ReqOutcome.success fr).state.formData = emptyFormData
    ∧ (handleSubmit st ReqOutcome.success fr).state.editingProperty = none
    ∧ (adminStep st AdminEvent.openAddHeader).formData = emptyFormData
    ∧ (adminStep st AdminEvent.openAddHeader).editingProperty = none := by
  refine ⟨rfl, rfl, rfl, ?_, ?_, rfl, rfl⟩ <;> cases fr <;> rfl
